import Mathlib

/-!
Verification of the Apple-Calendar-to-Json repository (two Python tools:
`Query-JSON.py`, a day-agenda filter, and `json_to_ics.py`, an ICS exporter)
against its natural-language specification.

Shallow embedding conventions:
* Strings are modelled as `List Char` (abbreviated `Str`); the content in all
  claims is ASCII, so characters model octets.
* Absolute instants (Python aware `datetime`s) are modelled as `Int`: seconds
  since the Unix epoch.  Sub-second precision is not represented; no claim
  involves sub-second instants.
* Calendar dates are modelled as day numbers (`Int`: days since the epoch),
  converted to and from civil `(year, month, day)` triples with the standard
  Gregorian-calendar algorithms (the same arithmetic CPython's `datetime`
  performs via its ordinal representation).
* A timezone (`zoneinfo.ZoneInfo`) is modelled as a function from a UTC
  instant to its UTC offset in minutes; concrete claims instantiate it with
  the relevant constant offset (e.g. `-300` for America/New_York in
  February, when EST is in effect, or `0` for UTC).
* Python's builtin `hash` is modelled as an explicit function parameter
  (`HashFn`): CPython computes it with a per-process random salt, so no fixed
  Lean function can stand for it; the exporter model is parametric in it.
* Fallible steps return `Option`: `none` models a Python exception that
  aborts the run (e.g. a malformed timestamp reaching `fromisoformat`).
-/

/-- Strings as lists of characters (ASCII content, so chars model octets). -/
abbrev Str := List Char

/-! ## Overlap test — `Query-JSON.py`, lines 24–25

`def overlaps(a_start, a_end, b_start, b_end): return a_start < b_end and a_end > b_start`

Python compares aware `datetime`s by their absolute instant, so `Int`
instants carry the same order. -/

/-- `overlaps` from `Query-JSON.py`: half-open interval intersection test. -/
def overlaps (a_start a_end b_start b_end : Int) : Bool :=
  decide (a_start < b_end) && decide (a_end > b_start)

/-! ## ICS text escaping — `json_to_ics.py`, lines 49–55

Each `str.replace` call has a single-character pattern, so it is
`List.flatMap` over characters; the four passes run in source order. -/

/-- One `s.replace(c, rep)` pass for a single-character pattern `c`. -/
def replaceChar (c : Char) (rep : Str) (s : Str) : Str :=
  s.flatMap (fun x => if x = c then rep else [x])

/-- `escape_ics_text` from `json_to_ics.py`: backslash, then newline, then
semicolon, then comma. -/
def escape_ics_text (s : Str) : Str :=
  replaceChar ',' ['\\', ','] <|
    replaceChar ';' ['\\', ';'] <|
      replaceChar '\n' ['\\', 'n'] <|
        replaceChar '\\' ['\\', '\\'] s

/-- The single-pass escape map: what one input character contributes to the
output of the full four-pass pipeline. -/
def escChar (c : Char) : Str :=
  if c = '\\' then ['\\', '\\']
  else if c = '\n' then ['\\', 'n']
  else if c = ';' then ['\\', ';']
  else if c = ',' then ['\\', ',']
  else [c]

/-! ## Line folding — `json_to_ics.py`, lines 58–67

The loop `while len(line) > limit: out.append(line[:limit]); line = " " + line[limit:]`
followed by `out.append(line)` produces the segment list `foldSegs`;
`fold_ics_line` joins the segments with CRLF.  All call sites use the default
`limit = 75`, which is fixed here. -/

/-- The segments the folding loop of `fold_ics_line` accumulates in `out`. -/
def foldSegs (l : Str) : List Str :=
  if _h : l.length ≤ 75 then [l]
  else l.take 75 :: foldSegs (' ' :: l.drop 75)
termination_by l.length
decreasing_by simp [List.length_drop]; omega

/-- `fold_ics_line` from `json_to_ics.py`: the CRLF-joined folded line. -/
def fold_ics_line (l : Str) : Str :=
  List.intercalate ['\r', '\n'] (foldSegs l)

/-- Re-joining folded segments: keep the first segment whole, strip the single
inserted leading space from each continuation segment, and concatenate. -/
def unfoldSegs : List Str → Str
  | [] => []
  | s :: rest => s ++ (rest.map (List.drop 1)).flatten

/-! ## Gregorian calendar arithmetic

Day numbers are days since the Unix epoch (1970-01-01 = day 0).  The
conversions between day numbers and civil `(year, month, day)` triples use
the standard era-based algorithms; they model the calendar arithmetic that
CPython's `datetime`/`date` objects perform via their ordinal representation. -/

/-- Day number (days since the epoch) of a civil date. -/
def days_from_civil (y m d : Int) : Int :=
  let y' := if m ≤ 2 then y - 1 else y
  let era := y'.fdiv 400
  let yoe := y' - era * 400
  let mp := (m + 9) % 12
  let doy := (153 * mp + 2).fdiv 5 + d - 1
  let doe := yoe * 365 + yoe.fdiv 4 - yoe.fdiv 100 + doy
  era * 146097 + doe - 719468

/-- Civil date `(year, month, day)` of a day number. -/
def civil_from_days (z : Int) : Int × Int × Int :=
  let z' := z + 719468
  let era := z'.fdiv 146097
  let doe := z' - era * 146097
  let yoe := (doe - doe.fdiv 1460 + doe.fdiv 36524 - doe.fdiv 146096).fdiv 365
  let y := yoe + era * 400
  let doy := doe - (365 * yoe + yoe.fdiv 4 - yoe.fdiv 100)
  let mp := (5 * doy + 2).fdiv 153
  let d := doy - (153 * mp + 2).fdiv 5 + 1
  let m := mp + (if mp < 10 then 3 else -9)
  (if m ≤ 2 then y + 1 else y, m, d)

/-- Gregorian leap-year test (as in `calendar.isleap` / `datetime`). -/
def isLeap (y : Int) : Bool :=
  (y % 4 = 0 && y % 100 ≠ 0) || y % 400 = 0

/-- Days in a month, used by `date`'s validation of day-of-month. -/
def daysInMonth (y m : Int) : Int :=
  if m = 2 then (if isLeap y then 29 else 28)
  else if m = 4 ∨ m = 6 ∨ m = 9 ∨ m = 11 then 30
  else 31

/-! ## Digit parsing and formatting helpers -/

/-- Numeric value of a decimal digit character. -/
def digitVal (c : Char) : Int :=
  (c.toNat : Int) - ('0'.toNat : Int)

/-- Decimal digits of a natural number (no sign, no padding), via the
fuel-based core routine (kernel-reducible, unlike well-founded recursion). -/
def natToStr (n : Nat) : Str :=
  Nat.toDigits 10 n

/-- Decimal rendering of an integer (as Python `str` of an `int`). -/
def intToStr (n : Int) : Str :=
  if n < 0 then '-' :: natToStr (-n).toNat else natToStr n.toNat

/-- Zero-pad the decimal rendering of a non-negative integer to `w` digits
(as `strftime`'s `%Y`, `%m`, `%d`, `%H`, `%M`, `%S` do). -/
def padInt (w : Nat) (n : Int) : Str :=
  let s := natToStr n.toNat
  List.replicate (w - s.length) '0' ++ s

/-! ## ISO-8601 parsing

`Query-JSON.py` and `json_to_ics.py` both pre-translate a trailing `"Z"`
into `"+00:00"` and then call the standard library: `date.fromisoformat`
for the agenda tool's date argument, `datetime.fromisoformat` for event
timestamps.  The definitions below embed the standard library's documented
behaviour (CPython ≥ 3.11, where `fromisoformat` accepts most ISO-8601
forms, in particular the compact `YYYYMMDD` date) restricted to the
grammar the claims exercise: calendar dates (dashed or compact), a `T` or
space separator, `HH:MM[:SS[.frac]]` times and an optional `±HH:MM` offset.
Rarer accepted forms (week dates, ordinal dates, compact times, fractional
offsets) are irrelevant to every claim and are not modelled. -/

/-- `date.fromisoformat`: dashed `YYYY-MM-DD` or compact `YYYYMMDD`
(the latter accepted since CPython 3.11), with range validation. -/
def date_fromisoformat (s : Str) : Option (Int × Int × Int) :=
  let mk := fun (y1 y2 y3 y4 m1 m2 d1 d2 : Char) =>
    if [y1, y2, y3, y4, m1, m2, d1, d2].all Char.isDigit then
      let y := 1000 * digitVal y1 + 100 * digitVal y2 + 10 * digitVal y3 + digitVal y4
      let m := 10 * digitVal m1 + digitVal m2
      let d := 10 * digitVal d1 + digitVal d2
      if 1 ≤ m ∧ m ≤ 12 ∧ 1 ≤ d ∧ d ≤ daysInMonth y m then some (y, m, d) else none
    else none
  match s with
  | [y1, y2, y3, y4, '-', m1, m2, '-', d1, d2] => mk y1 y2 y3 y4 m1 m2 d1 d2
  | [y1, y2, y3, y4, m1, m2, d1, d2] => mk y1 y2 y3 y4 m1 m2 d1 d2
  | _ => none

/-- Parse `[.frac]` then an optional `±HH:MM` offset; returns the UTC offset
in minutes (`none` inside the option meaning a naive result).  The fractional
part must be 1–6 digits; it is validated and discarded (instants are modelled
at second resolution and no claim involves sub-second values). -/
def parseFracOffset (rest : Str) : Option (Option Int) :=
  let parseOffset : Str → Option (Option Int) := fun r =>
    match r with
    | [] => some none
    | [sg, h1, h2, ':', m1, m2] =>
      if (sg = '+' ∨ sg = '-') ∧ [h1, h2, m1, m2].all Char.isDigit then
        let hh := 10 * digitVal h1 + digitVal h2
        let mm := 10 * digitVal m1 + digitVal m2
        if hh ≤ 23 ∧ mm ≤ 59 then
          some (some ((if sg = '-' then -1 else 1) * (hh * 60 + mm)))
        else none
      else none
    | _ => none
  match rest with
  | '.' :: r =>
    let frac := r.takeWhile Char.isDigit
    if 1 ≤ frac.length ∧ frac.length ≤ 6 then parseOffset (r.drop frac.length)
    else none
  | r => parseOffset r

/-- Parse `HH:MM[:SS[.frac]][±HH:MM]`; returns seconds within the day and
the optional UTC offset in minutes. -/
def parseTimeOffset (t : Str) : Option (Int × Option Int) :=
  match t with
  | h1 :: h2 :: ':' :: m1 :: m2 :: rest =>
    if [h1, h2, m1, m2].all Char.isDigit then
      let hh := 10 * digitVal h1 + digitVal h2
      let mm := 10 * digitVal m1 + digitVal m2
      if hh ≤ 23 ∧ mm ≤ 59 then
        match rest with
        | ':' :: s1 :: s2 :: rest2 =>
          if [s1, s2].all Char.isDigit then
            let ss := 10 * digitVal s1 + digitVal s2
            if ss ≤ 59 then
              (parseFracOffset rest2).map (fun off => (hh * 3600 + mm * 60 + ss, off))
            else none
          else none
        | rest2 => (parseFracOffset rest2).map (fun off => (hh * 3600 + mm * 60, off))
      else none
    else none
  | _ => none

/-- `datetime.fromisoformat` (claim-relevant grammar): a calendar date,
optionally followed by a `T` or space separator, a time and an offset.
Returns the instant in epoch seconds together with `true` when the input
carried an offset (an *aware* datetime) and `false` when it was naive; a
naive result's fields are read as if at UTC offset 0, matching how both
tools subsequently coerce naive values to UTC without shifting them. -/
def datetime_fromisoformat (s : Str) : Option (Int × Bool) :=
  if s.length ≤ 10 then
    (date_fromisoformat s).map (fun (y, m, d) => (days_from_civil y m d * 86400, false))
  else
    match date_fromisoformat (s.take 10), s.drop 10 with
    | some (y, m, d), sep :: timePart =>
      if sep = 'T' ∨ sep = ' ' then
        (parseTimeOffset timePart).map (fun (secs, off) =>
          match off with
          | some o => (days_from_civil y m d * 86400 + secs - o * 60, true)
          | none => (days_from_civil y m d * 86400 + secs, false))
      else none
    | _, _ => none

/-! ## Event records

A JSON event record.  `none` in a field models an absent key.  (A JSON
`null` under a present key is not modelled: in these fields it would crash
both tools and no claim concerns it.)  `allDay` models
`bool(e.get("allDay", False))`. -/

structure Event where
  id : Option Str
  title : Option Str
  start : Option Str
  stop : Option Str   -- the record's `end` field (`end` is reserved in Lean)
  allDay : Bool
  location : Option Str
  notes : Option Str

/-- Python `str.strip()` whitespace set (ASCII part). -/
def pyIsSpace (c : Char) : Bool :=
  c = ' ' || c = '\t' || c = '\n' || c = '\r' || c = '\x0b' || c = '\x0c'

/-- Python `str.strip()`: remove leading and trailing whitespace. -/
def pyStrip (s : Str) : Str :=
  ((s.dropWhile pyIsSpace).reverse.dropWhile pyIsSpace).reverse

/-- Python truthiness of `e.get(k)` for a string field: falsy iff the key is
absent (`None`) or the string is empty. -/
def isFalsy (o : Option Str) : Bool :=
  match o with
  | none => true
  | some s => s.isEmpty

/-- The timezone model: UTC offset in minutes as a function of the instant. -/
abbrev Tz := Int → Int

/-- Python `hash` applied to the tuple `(title, e.get('start'), e.get('end'))`
— an implementation-defined, per-process-salted function, hence a parameter. -/
abbrev HashFn := Str × Option Str × Option Str → Int

/-- Local calendar date (day number) of a UTC instant: `dt.astimezone(tz).date()`. -/
def localDateDays (tz : Tz) (t : Int) : Int :=
  (t + tz t * 60).fdiv 86400

/-! ## `json_to_ics.py` exporter model -/

/-- `to_utc_z` from `json_to_ics.py`: format an instant as `YYYYMMDDTHHMMSSZ`. -/
def to_utc_z (t : Int) : Str :=
  let (y, m, d) := civil_from_days (t.fdiv 86400)
  let sod := t.emod 86400
  padInt 4 y ++ padInt 2 m ++ padInt 2 d ++ ['T'] ++
    padInt 2 (sod.fdiv 3600) ++ padInt 2 ((sod.fdiv 60) % 60) ++ padInt 2 (sod % 60) ++ ['Z']

/-- `%Y%m%d` formatting of a day number. -/
def fmtDate8 (days : Int) : Str :=
  let (y, m, d) := civil_from_days days
  padInt 4 y ++ padInt 2 m ++ padInt 2 d

/-- `parse_iso8601` from `json_to_ics.py` followed by the naive-to-UTC
normalization on lines 109–112: a trailing `Z` becomes `+00:00`, then
`datetime.fromisoformat`; a naive result is re-tagged as UTC without
shifting, which leaves the modelled epoch value unchanged. -/
def parse_iso8601 (s : Str) : Option Int :=
  let s' := if s.getLast? = some 'Z' then s.dropLast ++ "+00:00".data else s
  (datetime_fromisoformat s').map Prod.fst

/-- The exporter's title: `(e.get("title") or "").strip() or "(No Title)"`. -/
def titleOf (e : Event) : Str :=
  let t := pyStrip (e.title.getD [])
  if t.isEmpty then "(No Title)".data else t

/-- The exporter's UID: the trimmed id, else
`f"no-id-{abs(hash((title, e.get('start'), e.get('end'))))}"`. -/
def uidOf (h : HashFn) (e : Event) : Str :=
  let u := pyStrip (e.id.getD [])
  if u.isEmpty then "no-id-".data ++ intToStr |h (titleOf e, e.start, e.stop)|
  else u

/-- The two `VALUE=DATE` lines of an all-day event, `json_to_ics.py`
lines 119–129: local dates in the export timezone, with the end forced to
start + 1 day when not strictly after the start. -/
def allDayLines (tz : Tz) (start_dt end_dt : Int) : List Str :=
  let start_local_date := localDateDays tz start_dt
  let end_local_date := localDateDays tz end_dt
  let end_local_date :=
    if end_local_date ≤ start_local_date then start_local_date + 1 else end_local_date
  ["DTSTART;VALUE=DATE:".data ++ fmtDate8 start_local_date,
   "DTEND;VALUE=DATE:".data ++ fmtDate8 end_local_date]

/-- One iteration of the exporter's event loop (`json_to_ics.py`
lines 95–148): `some []` when the record is skipped (falsy `start` or
`end`), `none` when a present timestamp fails to parse (a fatal
exception), otherwise the folded lines of one VEVENT block. -/
def eventBlock (h : HashFn) (tz : Tz) (now : Int) (e : Event) : Option (List Str) :=
  let title := titleOf e
  let uid := uidOf h e
  if isFalsy e.start || isFalsy e.stop then some []
  else
    match e.start, e.stop with
    | some start_raw, some end_raw =>
      match parse_iso8601 start_raw, parse_iso8601 end_raw with
      | some start_dt, some end_dt =>
        let core :=
          ["BEGIN:VEVENT".data,
           "UID:".data ++ escape_ics_text uid,
           "DTSTAMP:".data ++ to_utc_z now] ++
          (if e.allDay then allDayLines tz start_dt end_dt
           else ["DTSTART:".data ++ to_utc_z start_dt,
                 "DTEND:".data ++ to_utc_z end_dt]) ++
          ["SUMMARY:".data ++ escape_ics_text title] ++
          (let location := pyStrip (e.location.getD [])
           if location.isEmpty then [] else ["LOCATION:".data ++ escape_ics_text location]) ++
          (let notes := pyStrip (e.notes.getD [])
           if notes.isEmpty then [] else ["DESCRIPTION:".data ++ escape_ics_text notes]) ++
          ["END:VEVENT".data]
        some (core.map fold_ics_line)
      | _, _ => none
    | _, _ => some []

/-- The concatenated folded VEVENT lines of all records, in input order;
`none` if any record aborts the run. -/
def icsBody (h : HashFn) (tz : Tz) (now : Int) : List Event → Option (List Str)
  | [] => some []
  | e :: es =>
    match eventBlock h tz now e, icsBody h tz now es with
    | some b, some rest => some (b ++ rest)
    | _, _ => none

/-- The fixed VCALENDAR header lines, `json_to_ics.py` lines 87–93. -/
def headerLines : List Str :=
  ["BEGIN:VCALENDAR".data,
   "VERSION:2.0".data,
   "PRODID:-//Apple-Calendar-to-Json//caldump-json-to-ics//EN".data,
   "CALSCALE:GREGORIAN".data,
   "METHOD:PUBLISH".data]

/-- The exporter's run on a loaded event list: the output lines and the
event count printed in the confirmation message
(`f"OK: wrote ICS to {out_path} (events: {len(events)})"`, line 155). -/
def icsMain (h : HashFn) (tz : Tz) (now : Int) (events : List Event) :
    Option (List Str × Nat) :=
  (icsBody h tz now events).map
    (fun b => (headerLines ++ b ++ ["END:VCALENDAR".data], events.length))

/-! ## `Query-JSON.py` agenda model -/

/-- `parse_iso8601_z` from `Query-JSON.py`: trailing `Z` → `+00:00`, then
`datetime.fromisoformat(s).astimezone(timezone.utc)`.  On an aware result
`astimezone` preserves the instant; on a naive result it interprets the
wall-clock fields in the *system* local zone — that interpretation is the
explicit parameter `naive` (wall-clock epoch seconds → UTC instant). -/
def parse_iso8601_z (naive : Int → Int) (s : Str) : Option Int :=
  let s' := if s.getLast? = some 'Z' then s.dropLast ++ "+00:00".data else s
  (datetime_fromisoformat s').map (fun (t, aware) => if aware then t else naive t)

/-- Python `str.lower()` (ASCII). -/
def pyLower (s : Str) : Str :=
  s.map Char.toLower

/-- The error message of `resolve_target_date`'s `SystemExit`. -/
def dateUsageMsg : Str :=
  "Date must be \"today\", \"tomorrow\", or YYYY-MM-DD.".data

/-- `resolve_target_date` from `Query-JSON.py` (lines 28–39): `today` is the
current date in the local zone, passed in as a civil triple.  `.error`
models `raise SystemExit(msg)`: termination with a non-zero status and the
message. -/
def resolve_target_date (arg : Option Str) (today : Int × Int × Int) :
    Except Str (Int × Int × Int) :=
  match arg with
  | none => .ok today
  | some a =>
    if pyLower a = "today".data then .ok today
    else if pyLower a = "tomorrow".data then
      .ok (civil_from_days (days_from_civil today.1 today.2.1 today.2.2 + 1))
    else
      match date_fromisoformat a with
      | some d => .ok d
      | none => .error dateUsageMsg

/-- Local wall-clock seconds of a UTC instant (`astimezone(tz)` keeps the
instant; this is the wall-clock value its display fields show). -/
def localWall (tz : Tz) (t : Int) : Int :=
  t + tz t * 60

/-- `strftime("%-I:%M %p")`: 12-hour clock with no leading zero on the hour
and an uppercase AM/PM marker, from wall-clock seconds. -/
def fmtTime12 (w : Int) : Str :=
  let sod := w.emod 86400
  let hh := sod.fdiv 3600
  let mi := (sod.fdiv 60) % 60
  intToStr ((hh + 11) % 12 + 1) ++ [':'] ++ padInt 2 mi ++ [' '] ++
    (if hh < 12 then "AM".data else "PM".data)

/-- `format_time_range` from `Query-JSON.py` (lines 42–48), on the
wall-clock values of the local start and end. -/
def format_time_range (start_wall end_wall : Int) (all_day : Bool) : Str :=
  if all_day then "All Day".data
  else fmtTime12 start_wall ++ " – ".data ++ fmtTime12 end_wall

/-- Python format spec `{s:<18}`: left-align, pad with spaces on the right
to a minimum width of 18; never truncates. -/
def pyPadLeftAlign (s : Str) (w : Nat) : Str :=
  s ++ List.replicate (w - s.length) ' '

/-- One printed agenda line, `Query-JSON.py` line 98:
`f"{time_str:<18} {m['title']}"`. -/
def agendaLine (time_str title : Str) : Str :=
  pyPadLeftAlign time_str 18 ++ [' '] ++ title

/-- One resolved match of the agenda filter (`Query-JSON.py` lines 79–84);
`start`/`stop` are kept as UTC instants (the stored local datetimes denote
the same instants, and comparisons and display go through `localWall`). -/
structure AgendaMatch where
  title : Str
  start : Int
  stop : Int
  all_day : Bool
deriving DecidableEq

/-- The agenda tool's filter loop (`Query-JSON.py` lines 68–84): a record
without a `start` or `end` key is skipped (`continue`); a present timestamp
that fails to parse is fatal (`none`); otherwise the record is kept iff its
interval overlaps the day window. -/
def queryMatches (naive : Int → Int) (dayS dayE : Int) : List Event → Option (List AgendaMatch)
  | [] => some []
  | e :: es =>
    match e.start, e.stop with
    | some start_raw, some end_raw =>
      match parse_iso8601_z naive start_raw, parse_iso8601_z naive end_raw with
      | some start_utc, some end_utc =>
        (queryMatches naive dayS dayE es).map (fun rest =>
          if overlaps start_utc end_utc dayS dayE then
            { title := match e.title with
                       | none => "(No Title)".data
                       | some t => if t.isEmpty then "(No Title)".data else t,
              start := start_utc, stop := end_utc, all_day := e.allDay } :: rest
          else rest)
      | _, _ => none
    | _, _ => queryMatches naive dayS dayE es

/-- The printed per-match lines (`Query-JSON.py` lines 86–98): matches
sorted by start (Python `list.sort` is stable; `mergeSort` is its stable
counterpart), each rendered as the padded time-range column and the title. -/
def agendaOutput (naive : Int → Int) (dayS dayE : Int) (tz : Tz) (events : List Event) :
    Option (List Str) :=
  (queryMatches naive dayS dayE events).map (fun ms =>
    (ms.mergeSort (fun a b => a.start ≤ b.start)).map (fun m =>
      agendaLine (format_time_range (localWall tz m.start) (localWall tz m.stop) m.all_day)
        m.title))

/-! ## Concrete fixtures used by witnesses and counterexamples -/

/-- An event whose `id` trims to the empty string, forcing the fallback UID
(the exporter's line 97). -/
def evNoId : Event :=
  { id := some "  ".data, title := some "Standup".data,
    start := some "2026-02-19T14:00:00.000Z".data,
    stop := some "2026-02-19T14:15:00.000Z".data,
    allDay := false, location := none, notes := none }

/-- The spec's all-day scenario: `start` = `end` = `2026-02-19T00:00:00Z`,
`allDay: true`. -/
def evAllDayScenario : Event :=
  { id := none, title := some "X".data,
    start := some "2026-02-19T00:00:00Z".data,
    stop := some "2026-02-19T00:00:00Z".data,
    allDay := true, location := none, notes := none }

/-- A record with no `start` key (and a well-formed `end`). -/
def evMissingStart : Event :=
  { id := none, title := some "T".data, start := none,
    stop := some "2026-02-19T14:15:00.000Z".data,
    allDay := false, location := none, notes := none }
theorem foldSegs_of_short (l : Str) (h : l.length ≤ 75) : foldSegs l = [l] := by
  rw [foldSegs]
  simp [h]

theorem foldSegs_of_long (l : Str) (h : ¬ l.length ≤ 75) :
    foldSegs l = l.take 75 :: foldSegs (' ' :: l.drop 75) := by
  rw [foldSegs]
  simp [h]

theorem fold_short (l : Str) (h : l.length ≤ 75) : fold_ics_line l = l := by
  simp [fold_ics_line, foldSegs_of_short l h, List.intercalate]

theorem foldSegs_ne_nil (l : Str) : foldSegs l ≠ [] := by
  rw [foldSegs]
  split <;> simp

/-- Dropping the first character of every segment and concatenating yields the
input minus its first character. -/
theorem foldSegs_drop_join (l : Str) :
    ((foldSegs l).map (List.drop 1)).flatten = l.drop 1 := by
  induction l using foldSegs.induct with
  | case1 l h =>
    rw [foldSegs_of_short l h]
    simp
  | case2 l h ih =>
    rw [foldSegs_of_long l h]
    simp only [List.map_cons, List.flatten_cons, ih]
    have h75 : (l.take 75).length = 75 := by
      simp
      omega
    rw [List.drop_one (' ' :: l.drop 75), List.tail_cons]
    conv_rhs => rw [← List.take_append_drop 75 l]
    rw [List.drop_append_eq_append_drop, h75]
    simp

theorem unfoldSegs_foldSegs (l : Str) : unfoldSegs (foldSegs l) = l := by
  induction l using foldSegs.induct with
  | case1 l h =>
    rw [foldSegs_of_short l h]
    simp [unfoldSegs]
  | case2 l h ih =>
    rw [foldSegs_of_long l h]
    simp only [unfoldSegs, foldSegs_drop_join]
    simp only [List.drop_one, List.tail_cons]
    exact List.take_append_drop 75 l

theorem foldSegs_len (l : Str) : ∀ s ∈ foldSegs l, s.length ≤ 75 := by
  induction l using foldSegs.induct with
  | case1 l h =>
    rw [foldSegs_of_short l h]
    simpa using h
  | case2 l h ih =>
    rw [foldSegs_of_long l h]
    intro s hs
    rcases List.mem_cons.mp hs with hs | hs
    · subst hs
      simp
    · exact ih s hs

theorem foldSegs_head_space (l : Str) :
    (∀ s ∈ (foldSegs l).tail, s.head? = some ' ') ∧
      (l.head? = some ' ' → ∀ s ∈ foldSegs l, s.head? = some ' ') := by
  induction l using foldSegs.induct with
  | case1 l h =>
    rw [foldSegs_of_short l h]
    constructor
    · simp
    · intro hl s hs
      simp at hs
      subst hs
      exact hl
  | case2 l h ih =>
    rw [foldSegs_of_long l h]
    have hcont : ∀ s ∈ foldSegs (' ' :: l.drop 75), s.head? = some ' ' := by
      intro s hs
      exact ih.2 (by simp) s hs
    constructor
    · simpa using hcont
    · intro hl s hs
      rcases List.mem_cons.mp hs with hs | hs
      · subst hs
        cases l with
        | nil => simp at h
        | cons a as =>
          simp at hl
          simp [hl]
      · exact hcont s hs

/-! ## Escaping lemmas -/

theorem replaceChar_append (c : Char) (rep : Str) (l₁ l₂ : Str) :
    replaceChar c rep (l₁ ++ l₂) = replaceChar c rep l₁ ++ replaceChar c rep l₂ := by
  simp [replaceChar]

theorem escape_append (l₁ l₂ : Str) :
    escape_ics_text (l₁ ++ l₂) = escape_ics_text l₁ ++ escape_ics_text l₂ := by
  simp [escape_ics_text, replaceChar_append]

theorem escape_singleton (c : Char) : escape_ics_text [c] = escChar c := by
  by_cases h1 : c = '\\'
  · subst h1; rfl
  by_cases h2 : c = '\n'
  · subst h2; rfl
  by_cases h3 : c = ';'
  · subst h3; rfl
  by_cases h4 : c = ','
  · subst h4; rfl
  simp [escape_ics_text, replaceChar, escChar, h1, h2, h3, h4]

/-! ## Claim theorems -/

/-- Claim C1, counterexample: the claim says a zero-length interval
`[x, x)` overlaps nothing, but `overlaps(5, 5, 0, 10)` is
`5 < 10 and 5 > 0`, which is true. -/
theorem C1_zero_length_counterexample : overlaps 5 5 0 10 = true := by decide

/-- Claim C1 (amended): a zero-length interval `[x, x)` overlaps `[b_start,
b_end)` exactly when its point lies strictly inside, `b_start < x < b_end`;
in particular it never overlaps itself. -/
theorem C1_zero_length_overlap (x b_start b_end : Int) :
    (overlaps x x b_start b_end = true ↔ b_start < x ∧ x < b_end) ∧
      overlaps x x x x = false := by
  constructor
  · simp [overlaps, and_comm]
  · simp [overlaps]

/-- Claim C8 (confirmed): the overlap test is symmetric,
`overlaps(A, B) = overlaps(B, A)`. -/
theorem C8_overlaps_symm (a_start a_end b_start b_end : Int) :
    overlaps a_start a_end b_start b_end = overlaps b_start b_end a_start a_end := by
  unfold overlaps
  rw [Bool.and_comm]

/-- Claim C6 (confirmed): the four sequential replacements of
`escape_ics_text` (backslash first) equal one simultaneous single pass over
the input, so each special character of the input yields exactly one escape
and no inserted escape is itself re-escaped. -/
theorem C6_escape_single_pass (s : Str) : escape_ics_text s = s.flatMap escChar := by
  induction s with
  | nil => rfl
  | cons c cs ih =>
    rw [show (c :: cs : Str) = [c] ++ cs from rfl, escape_append, escape_singleton, ih]
    simp

/-- Claim C5 (confirmed): a line of length ≤ 75 folds to itself; in general
every folded segment has length ≤ 75, every continuation segment starts
with the inserted space, and stripping one leading character from each
continuation and concatenating reconstructs the original line;
`fold_ics_line` is the CRLF-join of those segments. -/
theorem C5_fold_round_trip (l : Str) :
    (l.length ≤ 75 → fold_ics_line l = l) ∧
      (∀ s ∈ foldSegs l, s.length ≤ 75) ∧
      (∀ s ∈ (foldSegs l).tail, s.head? = some ' ') ∧
      unfoldSegs (foldSegs l) = l ∧
      fold_ics_line l = List.intercalate ['\r', '\n'] (foldSegs l) :=
  ⟨fold_short l, foldSegs_len l, (foldSegs_head_space l).1, unfoldSegs_foldSegs l, rfl⟩

/-- Claim C5, witness: a 10-character line folds to itself, and a
200-character line folds and re-joins to itself. -/
theorem C5_fold_round_trip_witness :
    fold_ics_line (List.replicate 10 'a') = List.replicate 10 'a' ∧
      unfoldSegs (foldSegs (List.replicate 200 'b')) = List.replicate 200 'b' :=
  ⟨(C5_fold_round_trip _).1 (by decide), (C5_fold_round_trip _).2.2.2.1⟩

/-- Claim C3, counterexample: the claim says no token outside
today/tomorrow/`YYYY-MM-DD` is accepted, naming compact `YYYYMMDD` as
rejected; but `date.fromisoformat` (CPython ≥ 3.11, any current `python3`)
parses `"20260219"`, so resolution succeeds instead of failing. -/
theorem C3_target_date_counterexample :
    resolve_target_date (some "20260219".data) (2026, 2, 18) = Except.ok (2026, 2, 19) ∧
      resolve_target_date (some "20260219".data) (2026, 2, 18) ≠ Except.error dateUsageMsg :=
  ⟨rfl, fun hc => Except.noConfusion hc⟩

/-- Claim C3 (amended): resolution accepts "today"/"tomorrow"
case-insensitively (and an absent token as today), and otherwise accepts a
token exactly when `date.fromisoformat` parses it — which includes both
strict `YYYY-MM-DD` and, under CPython ≥ 3.11, compact `YYYYMMDD`; every
remaining token fails with `SystemExit` (non-zero exit, usage message). -/
theorem C3_target_date_resolution (today : Int × Int × Int) (arg : Str) :
    resolve_target_date none today = Except.ok today ∧
      (pyLower arg = "today".data → resolve_target_date (some arg) today = Except.ok today) ∧
      (pyLower arg = "tomorrow".data →
        resolve_target_date (some arg) today =
          Except.ok (civil_from_days (days_from_civil today.1 today.2.1 today.2.2 + 1))) ∧
      (∀ d, date_fromisoformat arg = some d → pyLower arg ≠ "today".data →
        pyLower arg ≠ "tomorrow".data →
        resolve_target_date (some arg) today = Except.ok d) ∧
      (date_fromisoformat arg = none → pyLower arg ≠ "today".data →
        pyLower arg ≠ "tomorrow".data →
        resolve_target_date (some arg) today = Except.error dateUsageMsg) ∧
      resolve_target_date (some "20260219".data) today = Except.ok (2026, 2, 19) := by
  refine ⟨rfl, fun h => ?_, fun h => ?_, fun d hd h1 h2 => ?_, fun hn h1 h2 => ?_, rfl⟩
  · simp [resolve_target_date, h]
  · simp [resolve_target_date, h]
  · simp [resolve_target_date, h1, h2, hd]
  · simp [resolve_target_date, h1, h2, hn]

/-- Claim C3, witness: an unparseable token fails with the usage message,
and `"TOMORROW"` (case-insensitive) resolves to the next day. -/
theorem C3_target_date_resolution_witness :
    resolve_target_date (some "garbage".data) (2026, 2, 18) = Except.error dateUsageMsg ∧
      resolve_target_date (some "TOMORROW".data) (2026, 2, 18) = Except.ok (2026, 2, 19) :=
  ⟨(C3_target_date_resolution (2026, 2, 18) "garbage".data).2.2.2.2.1
      (by decide) (by decide) (by decide),
   (C3_target_date_resolution (2026, 2, 18) "TOMORROW".data).2.2.1 (by decide)⟩

/-- Claim C9, counterexample: the claim says the time-range column is
padded on its left; but `f"{time_str:<18}"` left-aligns, so for the
all-day time string the line is `"All Day            X"` (padding on the
right of the time string), not `"           All Day X"`. -/
theorem C9_agenda_line_counterexample :
    agendaLine (format_time_range 0 0 true) "X".data = "All Day            X".data ∧
      agendaLine (format_time_range 0 0 true) "X".data ≠ "           All Day X".data := by
  constructor <;> decide

/-- Claim C9 (amended): each match prints as the time-range string rendered
left-aligned in a column of minimum width 18 — padded on its right with
spaces when shorter, never truncated when longer — followed by a single
space and the title. -/
theorem C9_agenda_line_layout (time_str title : Str) :
    agendaLine time_str title =
        time_str ++ List.replicate (18 - time_str.length) ' ' ++ [' '] ++ title ∧
      (time_str.length ≤ 18 → (agendaLine time_str title).length = 19 + title.length) ∧
      (18 ≤ time_str.length → agendaLine time_str title = time_str ++ [' '] ++ title) ∧
      (agendaLine time_str title).take time_str.length = time_str := by
  refine ⟨by simp [agendaLine, pyPadLeftAlign], fun h => ?_, fun h => ?_, ?_⟩
  · simp [agendaLine, pyPadLeftAlign]
    omega
  · simp [agendaLine, pyPadLeftAlign, Nat.sub_eq_zero_of_le h]
  · simp [agendaLine, pyPadLeftAlign, List.append_assoc]

/-- Claim C2 (code bug): the fallback UID for an id that trims to empty is
built from Python's builtin `hash` of `(title, start, end)`, which is
salted per process; the UID is not a function of the record alone — two
admissible hash functions give two different UIDs for the same input, so
re-exports churn identifiers, contradicting the spec's stability
requirement. -/
theorem C2_fallback_uid_hash_dependent :
    ∃ h₁ h₂ : HashFn, uidOf h₁ evNoId ≠ uidOf h₂ evNoId :=
  ⟨fun _ => 0, fun _ => 1, by decide⟩

/-- Claim C9, witness: a short time string gives a line of length 19 plus
the title; a 19-character time string is not truncated. -/
theorem C9_agenda_line_layout_witness :
    (agendaLine "All Day".data "X".data).length = 19 + "X".data.length ∧
      agendaLine "0123456789012345678".data "T".data =
        "0123456789012345678".data ++ [' '] ++ "T".data :=
  ⟨(C9_agenda_line_layout "All Day".data "X".data).2.1 (by decide),
   (C9_agenda_line_layout "0123456789012345678".data "T".data).2.2.1 (by decide)⟩

/-- Claim C4, counterexample: for the claim's scenario (`start` = `end` =
`2026-02-19T00:00:00Z`, all-day) under the default export timezone
America/New_York (UTC-5 in February), the local date of the start instant
is 2026-02-18, so the emitted lines are `DTSTART;VALUE=DATE:20260218` and
`DTEND;VALUE=DATE:20260219` — not the `20260219`/`20260220` the claim
asserts (which would require the export timezone to be UTC). -/
theorem C4_all_day_counterexample :
    (parse_iso8601 "2026-02-19T00:00:00Z".data).map
        (fun t => allDayLines (fun _ => -300) t t) =
      some ["DTSTART;VALUE=DATE:20260218".data, "DTEND;VALUE=DATE:20260219".data] ∧
      (parse_iso8601 "2026-02-19T00:00:00Z".data).map
          (fun t => allDayLines (fun _ => -300) t t) ≠
        some ["DTSTART;VALUE=DATE:20260219".data, "DTEND;VALUE=DATE:20260220".data] := by
  constructor <;> decide

/-- Claim C4 (amended): for every all-day event with both timestamps
present and parseable, the VEVENT block's fourth line is
`DTSTART;VALUE=DATE:` with the start instant's local calendar date in the
configured export timezone, and the fifth is `DTEND;VALUE=DATE:` with the
end instant's local date when that is strictly after the start's, else the
start's local date plus one day (exclusive end forced); the claim's
concrete scenario produces `20260219`/`20260220` only when the export
timezone is UTC. -/
theorem C4_all_day_dates (h : HashFn) (tz : Tz) (now : Int) (e : Event)
    (start_raw end_raw : Str) (start_dt end_dt : Int) (ls : List Str)
    (hs : e.start = some start_raw) (he : e.stop = some end_raw)
    (hsne : start_raw ≠ []) (hene : end_raw ≠ [])
    (hps : parse_iso8601 start_raw = some start_dt)
    (hpe : parse_iso8601 end_raw = some end_dt)
    (hall : e.allDay = true)
    (hblock : eventBlock h tz now e = some ls) :
    ls[3]? = some (fold_ics_line
        ("DTSTART;VALUE=DATE:".data ++ fmtDate8 (localDateDays tz start_dt))) ∧
      (localDateDays tz end_dt ≤ localDateDays tz start_dt →
        ls[4]? = some (fold_ics_line
          ("DTEND;VALUE=DATE:".data ++ fmtDate8 (localDateDays tz start_dt + 1)))) ∧
      (localDateDays tz start_dt < localDateDays tz end_dt →
        ls[4]? = some (fold_ics_line
          ("DTEND;VALUE=DATE:".data ++ fmtDate8 (localDateDays tz end_dt)))) := by
  have hemp : start_raw.isEmpty = false := by
    cases start_raw
    · exact absurd rfl hsne
    · rfl
  have hemp' : end_raw.isEmpty = false := by
    cases end_raw
    · exact absurd rfl hene
    · rfl
  simp only [eventBlock, hs, he, isFalsy, hemp, hemp', Bool.or_self, Bool.false_or,
    hps, hpe, hall, if_true, if_false, Bool.or_false, allDayLines] at hblock
  rw [if_neg (by decide)] at hblock
  injection hblock with hblock
  subst hblock
  refine ⟨?_, fun hle => ?_, fun hlt => ?_⟩
  · simp [List.append_assoc]
  · simp [List.append_assoc, if_pos hle]
  · simp [List.append_assoc, if_neg (not_le.mpr hlt)]

/-- Claim C4, witness: the claim's scenario with the export timezone set to
UTC yields `DTSTART;VALUE=DATE:20260219` and `DTEND;VALUE=DATE:20260220`
(forced exclusive end). -/
theorem C4_all_day_dates_witness :
    ∃ ls, eventBlock (fun _ => 0) (fun _ => 0) 1771459200 evAllDayScenario = some ls ∧
      ls[3]? = some "DTSTART;VALUE=DATE:20260219".data ∧
      ls[4]? = some "DTEND;VALUE=DATE:20260220".data := by
  obtain ⟨h3, h4le, h4lt⟩ := C4_all_day_dates (fun _ => 0) (fun _ => 0) 1771459200
    evAllDayScenario "2026-02-19T00:00:00Z".data "2026-02-19T00:00:00Z".data
    1771459200 1771459200 _ rfl rfl (by decide) (by decide) (by decide) (by decide) rfl rfl
  refine ⟨_, rfl, ?_, ?_⟩
  · rw [h3, fold_short _ (by decide)]
    decide
  · rw [h4le (by decide), fold_short _ (by decide)]
    decide

/-- Claim C7 (confirmed): a record with no `start` or no `end` key is
skipped by both tools without error — it contributes no VEVENT block and no
agenda match or line, and the output on the surrounding records is exactly
the output without the record. -/
theorem C7_skip_missing_fields (h : HashFn) (tz : Tz) (now : Int)
    (naive : Int → Int) (dayS dayE : Int) (xs ys : List Event) (e : Event)
    (hmiss : e.start = none ∨ e.stop = none) :
    eventBlock h tz now e = some [] ∧
      icsBody h tz now (xs ++ e :: ys) = icsBody h tz now (xs ++ ys) ∧
      queryMatches naive dayS dayE (xs ++ e :: ys) = queryMatches naive dayS dayE (xs ++ ys) ∧
      agendaOutput naive dayS dayE tz (xs ++ e :: ys) = agendaOutput naive dayS dayE tz (xs ++ ys) := by
  have hblock : eventBlock h tz now e = some [] := by
    rcases hmiss with hm | hm <;> simp [eventBlock, hm, isFalsy]
  have hq : queryMatches naive dayS dayE (xs ++ e :: ys) =
      queryMatches naive dayS dayE (xs ++ ys) := by
    induction xs with
    | nil =>
      rcases hmiss with hm | hm
      · simp [queryMatches, hm]
      · cases hstart : e.start <;> simp [queryMatches, hm, hstart]
    | cons x xs ih =>
      simp only [List.cons_append, queryMatches, List.append_eq, ih]
  have hbody : icsBody h tz now (xs ++ e :: ys) = icsBody h tz now (xs ++ ys) := by
    clear hq
    induction xs with
    | nil =>
      simp only [List.nil_append, icsBody, hblock]
      cases icsBody h tz now ys <;> simp
    | cons x xs ih =>
      simp only [List.cons_append, icsBody, List.append_eq, ih]
  exact ⟨hblock, hbody, hq, by simp [agendaOutput, hq]⟩

/-- Claim C7, witness: a record with no `start` key yields no VEVENT lines
and no agenda match. -/
theorem C7_skip_missing_fields_witness :
    icsBody (fun _ => 0) (fun _ => 0) 0 [evMissingStart] = some [] ∧
      queryMatches (fun t => t) 0 86400 [evMissingStart] = some [] := by
  obtain ⟨hb, hi, hq, ha⟩ := C7_skip_missing_fields (fun _ => 0) (fun _ => 0) 0
    (fun t => t) 0 86400 [] [] evMissingStart (Or.inl rfl)
  exact ⟨hi, hq⟩

/-- Claim C10 (confirmed): the exporter's confirmation message prints
`len(events)` — the total number of input records, including records
skipped for a missing or empty `start`/`end` — so the printed count can
exceed the number of VEVENT blocks written (a skipped record yields a
count of 1 with zero `BEGIN:VEVENT` lines). -/
theorem C10_event_count (h : HashFn) (tz : Tz) (now : Int)
    (events : List Event) (res : List Str × Nat)
    (hres : icsMain h tz now events = some res) :
    res.2 = events.length ∧
      ∃ res₁, icsMain h tz now [evMissingStart] = some res₁ ∧
        res₁.2 = 1 ∧ res₁.1.count "BEGIN:VEVENT".data = 0 := by
  constructor
  · simp only [icsMain, Option.map_eq_some'] at hres
    obtain ⟨b, hb, rfl⟩ := hres
    rfl
  · exact ⟨(headerLines ++ [] ++ ["END:VCALENDAR".data], 1), rfl, rfl, by decide⟩

/-- Claim C10, witness: on the empty event list the run succeeds and the
printed count is its length. -/
theorem C10_event_count_witness :
    ((headerLines ++ [] ++ ["END:VCALENDAR".data], 0) : List Str × Nat).2 =
        ([] : List Event).length ∧
      ∃ res₁, icsMain (fun _ => 0) (fun _ => 0) 0 [evMissingStart] = some res₁ ∧
        res₁.2 = 1 ∧ res₁.1.count "BEGIN:VEVENT".data = 0 :=
  C10_event_count (fun _ => 0) (fun _ => 0) 0 []
    (headerLines ++ [] ++ ["END:VCALENDAR".data], 0) rfl
